import Mathlib

/-!
Verification development for the `rashed-sora-sdk` client library
(`rashed_sora_sdk/validation.py`, `rashed_sora_sdk/client.py`,
`examples/cli.py`).

Pure functions are translated directly; effectful Python functions are
embedded as pure functions over explicit inputs (the HTTP response seen,
the sequence of job snapshots successive fetches would return, the
outcomes of the save sub-operations), and raising an exception is
represented by an `Except`-style error value.
-/

namespace SoraSdk

/-! ## Validation layer (`validation.py`) -/

/-- Source `SUPPORTED_RESOLUTIONS` from `validation.py`: the nine supported
`(width, height)` pairs. -/
def SUPPORTED_RESOLUTIONS : List (Int × Int) :=
  [ (480, 480), (480, 854), (854, 480),
    (720, 720), (720, 1280), (1280, 720),
    (1080, 1080), (1080, 1920), (1920, 1080) ]

/-- Source `MIN_DURATION` from `validation.py`. -/
def MIN_DURATION : Int := 1

/-- Source `MAX_DURATION` from `validation.py`. -/
def MAX_DURATION : Int := 20

/-- Source `MAX_VARIANTS` from `validation.py`: variant ceiling per resolution
category, embedded as an association list mirroring the Python dict. -/
def MAX_VARIANTS : List (String × Int) :=
  [ ("1080p", 1), ("720p", 2), ("other", 4) ]

/-- Dictionary lookup for the `MAX_VARIANTS` dict (`MAX_VARIANTS[category]`);
the categories produced by `_get_resolution_category` always hit a key. -/
def dictGetInt (d : List (String × Int)) (k : String) : Int :=
  match d.find? (fun p => p.1 == k) with
  | some p => p.2
  | none => 0

/-- Source `_get_resolution_category` from `validation.py`. -/
def _get_resolution_category (width height : Int) : String :=
  if width ≥ 1080 ∨ height ≥ 1080 then "1080p"
  else if width ≥ 720 ∨ height ≥ 720 then "720p"
  else "other"

/-- The message of the `ValidationError` raised by `validate_resolution`,
with the width/height already rendered to text. -/
def resolutionErrMsg (ws hs : String) : String :=
  "Resolution " ++ ws ++ "x" ++ hs ++ " is not supported. Supported resolutions: "
    ++ String.intercalate ", "
        (SUPPORTED_RESOLUTIONS.map (fun p => toString p.1 ++ "x" ++ toString p.2))

/-- Source `validate_resolution` from `validation.py`: raising `ValidationError`
is embedded as `Except.error` carrying the error message. -/
def validate_resolution (width height : Int) : Except String (Int × Int) :=
  if (width, height) ∈ SUPPORTED_RESOLUTIONS then
    .ok (width, height)
  else
    .error (resolutionErrMsg (toString width) (toString height))

/-- Source `validate_duration` from `validation.py` (width/height are unused by
the source but kept in the signature, as there). -/
def validate_duration (_width _height duration : Int) : Except String Int :=
  if duration < MIN_DURATION then
    .error ("Duration must be at least " ++ toString MIN_DURATION
      ++ " second. Got " ++ toString duration ++ " seconds.")
  else if duration > MAX_DURATION then
    .error ("Duration must be at most " ++ toString MAX_DURATION
      ++ " seconds. Got " ++ toString duration ++ " seconds.")
  else
    .ok duration

/-- Source `validate_variants` from `validation.py`. -/
def validate_variants (width height variants : Int) : Except String Int :=
  if variants ≤ 0 then
    .error "Number of variants must be greater than 0."
  else
    let category := _get_resolution_category width height
    let max_variants := dictGetInt MAX_VARIANTS category
    if variants > max_variants then
      if category = "1080p" then
        .error ("1080p resolutions only support 1 variant. Got "
          ++ toString variants ++ " variants.")
      else if category = "720p" then
        .error ("720p resolutions support maximum " ++ toString max_variants
          ++ " variants. Got " ++ toString variants ++ " variants.")
      else
        .error ("This resolution supports maximum " ++ toString max_variants
          ++ " variants. Got " ++ toString variants ++ " variants.")
    else
      .ok variants

/-- Source `get_max_variants_for_resolution` from `validation.py`. -/
def get_max_variants_for_resolution (width height : Int) : Int :=
  dictGetInt MAX_VARIANTS (_get_resolution_category width height)

/-- A Python exception escaping `validate_request`: either a
`ValidationError` with its message, or the `TypeError` Python raises when
a missing (`None`) numeric field is compared against an int bound. -/
inductive PyError where
  | validationError (msg : String)
  | typeError
  deriving DecidableEq

/-- The request dict passed to `create_video_generation_job` /
`validate_request`, with `none` standing for an absent key (the shapes the
repository actually builds never map a present key to Python `None`). -/
structure RequestData where
  prompt : Option String
  width : Option Int
  height : Option Int
  n_seconds : Option Int
  duration : Option Int
  n_variants : Option Int
  variants : Option Int
  deriving DecidableEq

/-- Python `str(...)` rendering of an optional int as it appears inside
the resolution error message (`str(None) = "None"`). -/
def pyShowOptInt : Option Int → String
  | some i => toString i
  | none => "None"

/-- Source `validate_request` from `validation.py`: reads `width`, `height`,
`n_seconds` (no fallback key) and `n_variants` (default 1) from the dict
and runs `validate_resolution`, then `validate_duration`, then
`validate_variants`. A missing `width`/`height` fails the membership test
of `validate_resolution`; a missing `n_seconds` makes the comparison
`None < MIN_DURATION` raise `TypeError`. -/
def validate_request (rd : RequestData) : Except PyError RequestData :=
  match rd.width, rd.height with
  | some w, some h =>
    match validate_resolution w h with
    | .error m => .error (.validationError m)
    | .ok _ =>
      match rd.n_seconds with
      | none => .error .typeError
      | some d =>
        match validate_duration w h d with
        | .error m => .error (.validationError m)
        | .ok _ =>
          match validate_variants w h (rd.n_variants.getD 1) with
          | .error m => .error (.validationError m)
          | .ok _ => .ok rd
  | _, _ =>
    .error (.validationError (resolutionErrMsg (pyShowOptInt rd.width) (pyShowOptInt rd.height)))

/-! ## Transport client (`client.py`): request serialization -/

/-- The JSON wire payload built by `create_video_generation_job`
(`transformed_request` in the source): the four numeric fields are carried
as strings. -/
structure WirePayload where
  model : String
  prompt : Option String
  height : String
  width : String
  n_seconds : String
  n_variants : String
  deriving DecidableEq

/-- The `transformed_request` dict built at the top of
`create_video_generation_job`: `str(...)` of each numeric field with the
source's `.get` fallbacks (`height`/`width` default 1080, `n_seconds`
falls back to `duration` then 5, `n_variants` falls back to `variants`
then 1), and `model` set to the deployment name. -/
def transformed_request (deployment_name : String) (rd : RequestData) : WirePayload :=
  { model := deployment_name
    prompt := rd.prompt
    height := toString (rd.height.getD 1080)
    width := toString (rd.width.getD 1080)
    n_seconds := toString (rd.n_seconds.getD (rd.duration.getD 5))
    n_variants := toString (rd.n_variants.getD (rd.variants.getD 1)) }

/-- A parsed JSON value, as far as the client's response handling
inspects one: strings, objects, and `null` (Python `None`). -/
inductive JVal where
  | jstr (s : String)
  | jdict (fields : List (String × JVal))
  | jnull

/-- Python `dict.get(key)` on a parsed JSON object (first match, `None`
embedded as `Option.none`). -/
def pyGet (fields : List (String × JVal)) (key : String) : Option JVal :=
  match fields.find? (fun p => p.1 == key) with
  | some p => some p.2
  | none => none

/-- Python truthiness of a JSON value (`None`, `""` and `{}` are falsy). -/
def truthy : JVal → Bool
  | .jnull => false
  | .jstr s => s ≠ ""
  | .jdict fields => !fields.isEmpty

/-- Python `a or b` where `a` came from a `dict.get` (so may be absent). -/
def pyOr (a : Option JVal) (b : JVal) : JVal :=
  match a with
  | some v => if truthy v then v else b
  | none => b

/-- The `SoraClientError` exception of `client.py`: message (any Python
value; a string in every path of this model), optional HTTP status code,
optional structured details. -/
structure SoraError where
  message : JVal
  status_code : Option Nat
  error_details : Option JVal

/-- Outcome of the pre-network phase of `create_video_generation_job`:
either a `SoraClientError` raised before any transmission (the
`ValidationError` handler), a `TypeError` escaping `validate_request`
uncaught, or the request proceeding to the network with its payload. -/
inductive CreateOutcome where
  | raisedClientError (e : SoraError)
  | raisedTypeError
  | proceed (payload : WirePayload)

/-- The pre-network phase of `create_video_generation_job` (`client.py`
lines 159-193): build `transformed_request`, run `validate_request`; a
`ValidationError` is re-raised as `SoraClientError` with message
`"Invalid request parameters: " + str(e)` and details
`{"validation_error": str(e)}`; only on success does control reach
`session.post`. -/
def create_pre_network (deployment_name : String) (rd : RequestData) : CreateOutcome :=
  let payload := transformed_request deployment_name rd
  match validate_request rd with
  | .error (.validationError m) =>
      .raisedClientError
        { message := .jstr ("Invalid request parameters: " ++ m)
          status_code := none
          error_details := some (.jdict [("validation_error", .jstr m)]) }
  | .error .typeError => .raisedTypeError
  | .ok _ => .proceed payload

/-! ## Transport client (`client.py`): response handling and delete -/

/-- Result of `json.loads` on the (non-empty) response text. -/
inductive BodyParse where
  | parsed (data : JVal)
  | unparseable

/-- An HTTP response as `_handle_response` observes it: status, reason
phrase, whether the `Content-Type` header contains `application/json`,
the body text, and what `json.loads` would make of that text. -/
structure HttpResponse where
  status : Nat
  reason : String
  contentTypeJson : Bool
  text : String
  parse : BodyParse

/-- aiohttp's `response.ok`: true iff the status is below 400. -/
def httpOk (status : Nat) : Bool := status < 400

/-- The `error_message` extraction of `_handle_response` for a parsed
dict body: `data.get("error", {}).get("message")` when `"error"` maps to
a dict, otherwise `data.get("message") or data.get("error") or
"HTTP {status}: {reason}"`. -/
def errorMessageOf (fields : List (String × JVal)) (status : Nat) (reason : String) : JVal :=
  match pyGet fields "error" with
  | some (.jdict ef) => (pyGet ef "message").getD .jnull
  | other =>
      pyOr (pyGet fields "message")
        (pyOr other (.jstr ("HTTP " ++ toString status ++ ": " ++ reason)))

/-- Source `_handle_response` from `client.py`: on a JSON content type, parse
the body (empty body parses as `{}`), raising `SoraClientError` on a
parse failure; then on a non-ok status raise the extracted error; on a
non-JSON content type, raise on non-ok status with the raw text, else
return `{}`. -/
def _handle_response (resp : HttpResponse) : Except SoraError JVal :=
  if resp.contentTypeJson then
    match (if resp.text = "" then .parsed (.jdict []) else resp.parse) with
    | .unparseable =>
        .error { message := .jstr ("Invalid JSON response: " ++ resp.text)
                 status_code := some resp.status
                 error_details := none }
    | .parsed data =>
        if httpOk resp.status then .ok data
        else
          match data with
          | .jdict fields =>
              .error { message := errorMessageOf fields resp.status resp.reason
                       status_code := some resp.status
                       error_details := some (.jdict fields) }
          | _ =>
              .error { message := .jstr ("HTTP " ++ toString resp.status ++ ": " ++ resp.reason)
                       status_code := some resp.status
                       error_details := none }
  else
    if httpOk resp.status then .ok (.jdict [])
    else
      .error { message := .jstr ("HTTP " ++ toString resp.status ++ ": " ++ resp.text)
               status_code := some resp.status
               error_details := none }

/-- Source `delete_video_generation_job` from `client.py`, as a function of the
HTTP response the DELETE request produced: 204 returns `True`
immediately; otherwise the response goes through `_handle_response` and,
if that does not raise, the method returns `True`. Any raised error is a
`SoraError` by the return type: the source's trailing handler wraps every
non-`SoraClientError` exception into a `SoraClientError`. -/
def delete_video_generation_job (resp : HttpResponse) : Except SoraError Bool :=
  if resp.status = 204 then .ok true
  else
    match _handle_response resp with
    | .error e => .error e
    | .ok _ => .ok true

/-- Whether an `Except` computation succeeded (did not raise). -/
def isOkE {ε α : Type} : Except ε α → Bool
  | .ok _ => true
  | .error _ => false

/-! ## Job lifecycle (`client.py`: `poll_job_until_complete`)

The job data model comes from `models.py`, which the repository imports
but which is not part of the source tree here; its shape is modelled
from the spec. -/

/-- Modelled from the spec: the `JobStatus` enum of the missing
`models.py` — `QUEUED, RUNNING, SUCCEEDED, FAILED, CANCELLED`, with the
latter three terminal. -/
inductive JobStatus where
  | queued
  | running
  | succeeded
  | failed
  | cancelled
  deriving DecidableEq

/-- Modelled from the spec: a `VideoGeneration` record of the missing
`models.py` — identifier, width, height, duration. -/
structure VideoGeneration where
  id : String
  width : Int
  height : Int
  n_seconds : Int
  deriving DecidableEq

/-- Modelled from the spec: a `VideoGenerationJob` record of the missing
`models.py` — identifier, status, optional failure reason, list of
generation records. -/
structure VideoGenerationJob where
  id : String
  status : JobStatus
  failure_reason : Option String
  generations : List VideoGeneration
  deriving DecidableEq

/-- The membership test `job.status in (JobStatus.SUCCEEDED,
JobStatus.FAILED, JobStatus.CANCELLED)` of `poll_job_until_complete`. -/
def isTerminal : JobStatus → Bool
  | .succeeded => true
  | .failed => true
  | .cancelled => true
  | _ => false

/-- Python `f"{x}"` of an optional failure-reason string
(`str(None) = "None"`). -/
def pyShowOptStr : Option String → String
  | some s => s
  | none => "None"

/-- What one iteration of `poll_job_until_complete` does with a freshly
fetched job snapshot. -/
inductive PollOutcome where
  | ok (job : VideoGenerationJob) (gens : List VideoGeneration)
  | clientError (message : String)
  | timeoutError (message : String)
  deriving DecidableEq

/-- The terminal-status check of one loop iteration: `none` means the
status is non-terminal and the loop sleeps and continues; on FAILED a
`SoraClientError` is raised with
`"Job failed with reason: {job.failure_reason}"`; on SUCCEEDED or
CANCELLED the job is returned together with `job.generations`. -/
def pollCheck (job : VideoGenerationJob) : Option PollOutcome :=
  if isTerminal job.status then
    if job.status = .failed then
      some (.clientError ("Job failed with reason: " ++ pyShowOptStr job.failure_reason))
    else
      some (.ok job job.generations)
  else
    none

/-- The message of the `TimeoutError` raised when `max_polls` is
exhausted: `f"Polling exceeded maximum attempts ({max_polls})"`. -/
def timeoutMsg (max_polls : Option Nat) : String :=
  "Polling exceeded maximum attempts ("
    ++ (match max_polls with | some n => toString n | none => "None") ++ ")"

/-- The guard of the `while` loop of `poll_job_until_complete`:
`max_polls is None or polls < max_polls`. -/
def withinMaxPolls (max_polls : Option Nat) (polls : Nat) : Bool :=
  match max_polls with
  | none => true
  | some n => polls < n

/-- The `while` loop of `poll_job_until_complete`. `fetch k` is the job
snapshot the `(k+1)`-th call to `get_video_generation_job` returns;
`polls` is the loop counter; `fuel` bounds the number of iterations
unwound (`none` = the loop is still running after `fuel` iterations).
A result pairs the outcome with the number of fetches performed. -/
def pollLoop (fetch : Nat → VideoGenerationJob) (max_polls : Option Nat)
    (polls : Nat) : Nat → Option (PollOutcome × Nat)
  | 0 => none
  | fuel + 1 =>
    if withinMaxPolls max_polls polls then
      match pollCheck (fetch polls) with
      | some out => some (out, polls + 1)
      | none => pollLoop fetch max_polls (polls + 1) fuel
    else
      some (.timeoutError (timeoutMsg max_polls), polls)

/-- Source `poll_job_until_complete` from `client.py`, as a function of the
fetch sequence (the sleeps between fetches do not affect the result). -/
def poll_job_until_complete (fetch : Nat → VideoGenerationJob)
    (max_polls : Option Nat) (fuel : Nat) : Option (PollOutcome × Nat) :=
  pollLoop fetch max_polls 0 fuel

/-- Source `msg` contains `r` as a substring. -/
def containsStr (msg r : String) : Prop :=
  ∃ pre post, msg = pre ++ r ++ post

/-! ## Download pipeline (`examples/cli.py`: `download_videos`) -/

/-- Source `download_videos` from `cli.py`, as a function of the outcomes of the
two save sub-operations for each generation. `saveVideo g` /`saveGif g`
is what `client.save_video_content` / `client.save_gif_content` does for
generation `g`: the saved path on success, a raised `SoraClientError` on
failure. Per generation: a video failure is caught by the outer handler
and nothing is appended; on video success the video path is appended,
then the GIF is attempted and a `SoraClientError` there is caught by the
inner handler (warning only), a success appending the GIF path. -/
def download_videos (saveVideo saveGif : VideoGeneration → Except SoraError String) :
    List VideoGeneration → List String
  | [] => []
  | g :: rest =>
    (match saveVideo g with
     | .error _ => []
     | .ok vp =>
       vp :: (match saveGif g with
              | .ok gp => [gp]
              | .error _ => [])) ++ download_videos saveVideo saveGif rest

/-! ## Session management (`client.py`: `_get_session`) -/

/-- An aiohttp `ClientSession` as `_get_session` observes it: an identity
(so distinct creations are distinguishable) and its `closed` flag. -/
structure ClientSession where
  sid : Nat
  closed : Bool
  deriving DecidableEq

/-- Source `_get_session` from `client.py`, as a function of the currently held
`self._session` (`none` = Python `None`): if the slot is empty or the
held session is closed, a fresh session (identity `freshId`, open) is
created and stored; otherwise the held session is returned unchanged.
Returns the session handed to the caller and the new `self._session`. -/
def _get_session (session : Option ClientSession) (freshId : Nat) :
    ClientSession × Option ClientSession :=
  match session with
  | none => (⟨freshId, false⟩, some ⟨freshId, false⟩)
  | some s =>
    if s.closed then (⟨freshId, false⟩, some ⟨freshId, false⟩)
    else (s, some s)

/-- A sequence of `_get_session` calls (no close in between), one per
fresh identity in the list, threading `self._session`; returns the
sessions observed by the callers in order. -/
def observeSessions (session : Option ClientSession) : List Nat → List ClientSession
  | [] => []
  | k :: ks =>
    let r := _get_session session k
    r.1 :: observeSessions r.2 ks

/-! ## Lemmas about the polling loop -/

theorem pollCheck_nonterminal (job : VideoGenerationJob)
    (h : isTerminal job.status = false) : pollCheck job = none := by
  simp [pollCheck, h]

theorem pollCheck_failed (job : VideoGenerationJob)
    (h : job.status = .failed) :
    pollCheck job =
      some (.clientError ("Job failed with reason: " ++ pyShowOptStr job.failure_reason)) := by
  simp [pollCheck, h, isTerminal]

theorem pollCheck_cancelled (job : VideoGenerationJob)
    (h : job.status = .cancelled) :
    pollCheck job = some (.ok job job.generations) := by
  simp [pollCheck, h, isTerminal]

/-- If the first `d` snapshots starting at loop counter `p` are
non-terminal and the `(p+d)`-th snapshot's check yields `out`, and the
loop bound admits counter `p+d`, the loop run from `p` with enough fuel
returns `out` after `p+d+1` fetches. -/
theorem pollLoop_reaches (fetch : Nat → VideoGenerationJob) (max_polls : Option Nat)
    (out : PollOutcome) :
    ∀ (d p : Nat),
      (∀ j, p ≤ j → j < p + d → pollCheck (fetch j) = none) →
      (match max_polls with | none => True | some n => p + d < n) →
      pollCheck (fetch (p + d)) = some out →
      ∀ fuel, d < fuel →
        pollLoop fetch max_polls p fuel = some (out, p + d + 1) := by
  intro d
  induction d with
  | zero =>
    intro p _ hin hchk fuel hfuel
    match fuel, hfuel with
    | fuel + 1, _ =>
      have hcond : withinMaxPolls max_polls p = true := by
        rcases max_polls with _ | n
        · rfl
        · have h1 : p + 0 < n := hin
          simp only [withinMaxPolls, decide_eq_true_eq]
          omega
      simp only [pollLoop]
      rw [if_pos hcond]
      rw [show p + 0 = p from rfl] at hchk
      rw [hchk]
  | succ d ih =>
    intro p hpre hin hchk fuel hfuel
    match fuel, hfuel with
    | fuel + 1, hfuel =>
      have hcond : withinMaxPolls max_polls p = true := by
        rcases max_polls with _ | n
        · rfl
        · have h1 : p + (d + 1) < n := hin
          simp only [withinMaxPolls, decide_eq_true_eq]
          omega
      simp only [pollLoop]
      rw [if_pos hcond]
      have hp : pollCheck (fetch p) = none := hpre p (Nat.le_refl p) (by omega)
      rw [hp]
      have hrec := ih (p + 1)
        (fun j hj1 hj2 => hpre j (by omega) (by omega))
        (by rcases max_polls with _ | n
            · trivial
            · show p + 1 + d < n
              have h1 : p + (d + 1) < n := hin
              omega)
        (by rw [show p + 1 + d = p + (d + 1) from by omega]; exact hchk)
        fuel (by omega)
      rw [hrec, show p + 1 + d + 1 = p + (d + 1) + 1 from by omega]

/-- If every snapshot from loop counter `p` up to the bound `n` is
non-terminal, the loop run from `p` with enough fuel exhausts `max_polls`
and raises the timeout after `n` fetches in total. -/
theorem pollLoop_timeout (fetch : Nat → VideoGenerationJob) (n : Nat) :
    ∀ (d p : Nat), p + d = n →
      (∀ j, p ≤ j → j < n → pollCheck (fetch j) = none) →
      ∀ fuel, d < fuel →
        pollLoop fetch (some n) p fuel =
          some (.timeoutError (timeoutMsg (some n)), n) := by
  intro d
  induction d with
  | zero =>
    intro p hpn _ fuel hfuel
    match fuel, hfuel with
    | fuel + 1, _ =>
      have hcond : ¬ (withinMaxPolls (some n) p = true) := by
        simp only [withinMaxPolls, decide_eq_true_eq]
        omega
      simp only [pollLoop]
      rw [if_neg hcond]
      congr 1
      rw [Prod.mk.injEq]
      exact ⟨rfl, by omega⟩
  | succ d ih =>
    intro p hpn hpre fuel hfuel
    match fuel, hfuel with
    | fuel + 1, hfuel =>
      have hcond : withinMaxPolls (some n) p = true := by
        simp only [withinMaxPolls, decide_eq_true_eq]
        omega
      simp only [pollLoop]
      rw [if_pos hcond]
      have hp : pollCheck (fetch p) = none := hpre p (Nat.le_refl p) (by omega)
      rw [hp]
      exact ih (p + 1) (by omega) (fun j hj1 hj2 => hpre j (by omega) hj2) fuel (by omega)

/-! ## C1 -/

/-- C1: if the polled job's snapshots are non-terminal up to fetch `k`
and the `k`-th fetched snapshot has status FAILED with failure reason
`r`, `poll_job_until_complete` raises `SoraClientError` (the uniform
client error, not a normal return and not the timeout error) and the
error message contains `r`. -/
theorem poll_failed_raises_client_error
    (fetch : Nat → VideoGenerationJob) (max_polls : Option Nat) (k : Nat) (r : String)
    (hpre : ∀ j, j < k → isTerminal (fetch j).status = false)
    (hst : (fetch k).status = .failed)
    (hr : (fetch k).failure_reason = some r)
    (hin : match max_polls with | none => True | some n => k < n)
    (fuel : Nat) (hfuel : k < fuel) :
    ∃ msg, poll_job_until_complete fetch max_polls fuel = some (.clientError msg, k + 1)
      ∧ containsStr msg r := by
  refine ⟨"Job failed with reason: " ++ r, ?_, "Job failed with reason: ", "", ?_⟩
  · have hchk : pollCheck (fetch k) =
        some (.clientError ("Job failed with reason: " ++ r)) := by
      rw [pollCheck_failed (fetch k) hst, hr]
      rfl
    have := pollLoop_reaches fetch max_polls
      (.clientError ("Job failed with reason: " ++ r)) k 0
      (fun j hj1 hj2 => pollCheck_nonterminal (fetch j) (hpre j (by omega)))
      (by cases max_polls with
          | none => trivial
          | some n => show 0 + k < n; have : k < n := hin; omega)
      (by rw [show (0 : Nat) + k = k from by omega]; exact hchk)
      fuel hfuel
    rw [poll_job_until_complete, this]
    congr 2
    omega
  · simp

/-- Concrete FAILED job snapshot with failure reason "quota exceeded". -/
def jobFailedQuota : VideoGenerationJob :=
  ⟨"job-f", .failed, some "quota exceeded", []⟩

/-- C1 witness: on a job whose very first fetch is FAILED with reason
"quota exceeded", polling raises the client error after one fetch with a
message containing "quota exceeded". -/
theorem poll_failed_raises_client_error_witness :
    ∃ msg, poll_job_until_complete (fun _ => jobFailedQuota) none 1 =
        some (.clientError msg, 1)
      ∧ containsStr msg "quota exceeded" :=
  poll_failed_raises_client_error (fun _ => jobFailedQuota) none 0 "quota exceeded"
    (fun j hj => absurd hj (Nat.not_lt_zero j)) rfl rfl trivial 1 (by decide)

/-! ## C2 -/

/-- C2: on a job whose snapshots never reach a terminal status,
`poll_job_until_complete` with `max_polls = n` (`n ≥ 1`) performs exactly
`n` fetches and then raises `TimeoutError`, which is a different
exception than `SoraClientError` (a distinct `PollOutcome` constructor
from `clientError`). -/
theorem poll_nonterminal_times_out
    (fetch : Nat → VideoGenerationJob) (n : Nat) (_hn : 1 ≤ n)
    (hnt : ∀ k, isTerminal (fetch k).status = false) :
    poll_job_until_complete fetch (some n) (n + 1) =
      some (.timeoutError (timeoutMsg (some n)), n)
    ∧ ∀ m, PollOutcome.timeoutError (timeoutMsg (some n)) ≠ .clientError m := by
  constructor
  · exact pollLoop_timeout fetch n n 0 (by omega)
      (fun j _ _ => pollCheck_nonterminal (fetch j) (hnt j)) (n + 1) (by omega)
  · intro m h
    exact PollOutcome.noConfusion h

/-- Concrete never-terminal (QUEUED) job snapshot. -/
def jobQueued : VideoGenerationJob := ⟨"job-q", .queued, none, []⟩

/-- C2 witness: with `max_polls = 2` and a job that stays QUEUED, polling
raises the timeout error after exactly 2 fetches. -/
theorem poll_nonterminal_times_out_witness :
    poll_job_until_complete (fun _ => jobQueued) (some 2) 3 =
      some (.timeoutError (timeoutMsg (some 2)), 2)
    ∧ ∀ m, PollOutcome.timeoutError (timeoutMsg (some 2)) ≠ .clientError m :=
  poll_nonterminal_times_out (fun _ => jobQueued) 2 (by decide) (fun _ => rfl)

/-! ## C3 -/

/-- Concrete generation record. -/
def genSample : VideoGeneration := ⟨"gen-1", 480, 480, 5⟩

/-- Concrete CANCELLED job snapshot that carries one generation record. -/
def jobCancelledWithGen : VideoGenerationJob :=
  ⟨"job-c", .cancelled, none, [genSample]⟩

/-- C3 counterexample: a CANCELLED job carrying a generation record makes
`poll_job_until_complete` return that (non-empty) carried list, not an
empty generation list as the claim states. -/
theorem poll_cancelled_counterexample :
    poll_job_until_complete (fun _ => jobCancelledWithGen) (some 1) 2 =
      some (.ok jobCancelledWithGen [genSample], 1)
    ∧ [genSample] ≠ ([] : List VideoGeneration) := by
  exact ⟨by decide, by decide⟩

/-- C3 (amended): if the polled job's snapshots are non-terminal up to
fetch `k` and the `k`-th fetched snapshot has status CANCELLED,
`poll_job_until_complete` returns normally (does not raise) with that job
and the job's own carried generation list — which is empty exactly when
the fetched job carries no generation records. -/
theorem poll_cancelled_returns_carried_generations
    (fetch : Nat → VideoGenerationJob) (max_polls : Option Nat) (k : Nat)
    (hpre : ∀ j, j < k → isTerminal (fetch j).status = false)
    (hst : (fetch k).status = .cancelled)
    (hin : match max_polls with | none => True | some n => k < n)
    (fuel : Nat) (hfuel : k < fuel) :
    poll_job_until_complete fetch max_polls fuel =
      some (.ok (fetch k) (fetch k).generations, k + 1) := by
  have := pollLoop_reaches fetch max_polls (.ok (fetch k) (fetch k).generations) k 0
    (fun j hj1 hj2 => pollCheck_nonterminal (fetch j) (hpre j (by omega)))
    (by cases max_polls with
        | none => trivial
        | some n => show 0 + k < n; have : k < n := hin; omega)
    (by rw [show (0 : Nat) + k = k from by omega]
        exact pollCheck_cancelled (fetch k) hst)
    fuel hfuel
  rw [poll_job_until_complete, this]
  congr 2
  omega

/-- C3 (amended) witness: polling the concrete cancelled job returns it
with its carried generation list after one fetch. -/
theorem poll_cancelled_returns_carried_generations_witness :
    poll_job_until_complete (fun _ => jobCancelledWithGen) (some 1) 2 =
      some (.ok jobCancelledWithGen jobCancelledWithGen.generations, 1) :=
  poll_cancelled_returns_carried_generations (fun _ => jobCancelledWithGen)
    (some 1) 0 (fun j hj => absurd hj (Nat.not_lt_zero j)) rfl (by decide) 2 (by decide)

/-! ## Reduction lemma for `validate_request` -/

/-- Unfolding of `validate_request` once `width`/`height` are known to be
present. -/
theorem validate_request_unfold (rd : RequestData) (w h : Int)
    (hw : rd.width = some w) (hh : rd.height = some h) :
    validate_request rd =
      (match validate_resolution w h with
       | .error m => .error (.validationError m)
       | .ok _ =>
         match rd.n_seconds with
         | none => .error .typeError
         | some d =>
           match validate_duration w h d with
           | .error m => .error (.validationError m)
           | .ok _ =>
             match validate_variants w h (rd.n_variants.getD 1) with
             | .error m => .error (.validationError m)
             | .ok _ => .ok rd) := by
  obtain ⟨pr, ow, oh, ns, du, nv, va⟩ := rd
  simp only at hw hh
  subst hw
  subst hh
  rfl

/-! ## C4 -/

/-- C4: for every request that passes validation and carries the four
numeric fields, the pre-network phase of `create_video_generation_job`
proceeds to transmission with a wire payload in which height, width,
duration and variant-count appear as the string representations of their
numeric values under the wire names `height`, `width`, `n_seconds`,
`n_variants`, and `model` is the deployment name. -/
theorem create_wire_payload (dep : String) (rd : RequestData) (w h d v : Int)
    (hw : rd.width = some w) (hh : rd.height = some h)
    (hd : rd.n_seconds = some d) (hv : rd.n_variants = some v)
    (hok : isOkE (validate_request rd) = true) :
    create_pre_network dep rd = .proceed
      { model := dep
        prompt := rd.prompt
        height := toString h
        width := toString w
        n_seconds := toString d
        n_variants := toString v } := by
  have hreq : validate_request rd = .ok rd := by
    rw [validate_request_unfold rd w h hw hh] at hok ⊢
    cases hres : validate_resolution w h with
    | error m => simp [hres, isOkE] at hok
    | ok p =>
      simp only [hres, hd] at hok ⊢
      cases hdur : validate_duration w h d with
      | error m => simp [hdur, isOkE] at hok
      | ok d' =>
        simp only [hdur] at hok ⊢
        cases hvar : validate_variants w h (rd.n_variants.getD 1) with
        | error m => simp [hvar, isOkE] at hok
        | ok v' => simp [hvar]
  unfold create_pre_network
  rw [hreq]
  unfold transformed_request
  rw [hw, hh, hd, hv]
  rfl

/-- Concrete valid request: the testable-property example
width=1080, height=1080, duration=5, variants=1. -/
def rdExample : RequestData :=
  ⟨some "A cartoon racoon dancing in a disco",
    some 1080, some 1080, some 5, none, some 1, none⟩

/-- C4 witness: the example request produces exactly the example wire
payload. -/
theorem create_wire_payload_witness :
    create_pre_network "sora-deployment" rdExample = .proceed
      { model := "sora-deployment"
        prompt := rdExample.prompt
        height := toString (1080 : Int)
        width := toString (1080 : Int)
        n_seconds := toString (5 : Int)
        n_variants := toString (1 : Int) } :=
  create_wire_payload "sora-deployment" rdExample 1080 1080 5 1
    rfl rfl rfl rfl (by rfl)

/-! ## C5 -/

/-- C5: for every request on which `validate_request` raises a
`ValidationError` with message `m`, the pre-network phase of
`create_video_generation_job` raises the uniform client error
(`SoraClientError`), whose message is exactly
`"Invalid request parameters: " ++ m` (so it carries the validation
message), and the request never proceeds to the network. -/
theorem create_validation_failure_uniform (dep : String) (rd : RequestData) (m : String)
    (hval : validate_request rd = .error (.validationError m)) :
    (∃ e, create_pre_network dep rd = .raisedClientError e
      ∧ e.message = .jstr ("Invalid request parameters: " ++ m)
      ∧ containsStr ("Invalid request parameters: " ++ m) m)
    ∧ ∀ p, create_pre_network dep rd ≠ .proceed p := by
  have hout : create_pre_network dep rd = .raisedClientError
      { message := .jstr ("Invalid request parameters: " ++ m)
        status_code := none
        error_details := some (.jdict [("validation_error", .jstr m)]) } := by
    unfold create_pre_network
    rw [hval]
  refine ⟨⟨_, hout, rfl, "Invalid request parameters: ", "", by simp⟩, ?_⟩
  intro p hp
  rw [hout] at hp
  exact CreateOutcome.noConfusion hp

/-- Concrete invalid request: unsupported resolution 999x999. -/
def rdBadResolution : RequestData :=
  ⟨some "A cartoon racoon dancing in a disco",
    some 999, some 999, some 5, none, some 1, none⟩

/-- C5 witness: the 999x999 request is rejected before the network with
a client error whose message carries the resolution validation message. -/
theorem create_validation_failure_uniform_witness :
    (∃ e, create_pre_network "sora-deployment" rdBadResolution = .raisedClientError e
      ∧ e.message = .jstr ("Invalid request parameters: " ++ resolutionErrMsg "999" "999")
      ∧ containsStr ("Invalid request parameters: " ++ resolutionErrMsg "999" "999")
          (resolutionErrMsg "999" "999"))
    ∧ ∀ p, create_pre_network "sora-deployment" rdBadResolution ≠ .proceed p :=
  create_validation_failure_uniform "sora-deployment" rdBadResolution
    (resolutionErrMsg "999" "999") (by rfl)

/-! ## C9 -/

/-- C9: `validate_request` composes the three checks in the order
resolution, duration, variants, and reports exactly the error of the
earliest failing check: a resolution error is reported regardless of the
later fields; a duration error is reported only once resolution passed;
a variants error only once resolution and duration passed; and when all
three pass the request is returned unchanged. No aggregate error exists:
every failure is a single check's `ValidationError`. -/
theorem validate_request_first_error (rd : RequestData) (w h : Int)
    (hw : rd.width = some w) (hh : rd.height = some h) :
    (∀ m, validate_resolution w h = .error m →
      validate_request rd = .error (.validationError m))
    ∧ (∀ p d m, validate_resolution w h = .ok p → rd.n_seconds = some d →
        validate_duration w h d = .error m →
        validate_request rd = .error (.validationError m))
    ∧ (∀ p d d' m, validate_resolution w h = .ok p → rd.n_seconds = some d →
        validate_duration w h d = .ok d' →
        validate_variants w h (rd.n_variants.getD 1) = .error m →
        validate_request rd = .error (.validationError m))
    ∧ (∀ p d d' v', validate_resolution w h = .ok p → rd.n_seconds = some d →
        validate_duration w h d = .ok d' →
        validate_variants w h (rd.n_variants.getD 1) = .ok v' →
        validate_request rd = .ok rd) := by
  refine ⟨?_, ?_, ?_, ?_⟩
  · intro m hres
    rw [validate_request_unfold rd w h hw hh]
    simp [hres]
  · intro p d m hres hd hdur
    rw [validate_request_unfold rd w h hw hh]
    simp [hres, hd, hdur]
  · intro p d d' m hres hd hdur hvar
    rw [validate_request_unfold rd w h hw hh]
    simp [hres, hd, hdur, hvar]
  · intro p d d' v' hres hd hdur hvar
    rw [validate_request_unfold rd w h hw hh]
    simp [hres, hd, hdur, hvar]

/-- Concrete request violating all three constraints at once:
unsupported resolution 999x999, duration 0 below the minimum, and
variant count 99 above every ceiling. -/
def rdAllBad : RequestData :=
  ⟨some "p", some 999, some 999, some 0, none, some 99, none⟩

/-- C9 witness: on a request violating resolution, duration and variants
simultaneously, the reported error is the resolution error — the
earliest check in the order — and nothing else. -/
theorem validate_request_first_error_witness :
    validate_request rdAllBad =
      .error (.validationError (resolutionErrMsg "999" "999")) :=
  (validate_request_first_error rdAllBad 999 999 rfl rfl).1
    (resolutionErrMsg "999" "999") (by rfl)

/-! ## C6 -/

/-- Helper: explicit closed form of `get_max_variants_for_resolution`. -/
theorem max_variants_closed_form (w h : Int) :
    get_max_variants_for_resolution w h =
      if w ≥ 1080 ∨ h ≥ 1080 then 1 else if w ≥ 720 ∨ h ≥ 720 then 2 else 4 := by
  unfold get_max_variants_for_resolution _get_resolution_category
  split_ifs <;> rfl

/-- Helper: `validate_variants` succeeds exactly on counts in
`(0, max_variants_for(width, height)]`. -/
theorem validate_variants_isOk (w h v : Int) :
    isOkE (validate_variants w h v) = true ↔
      (0 < v ∧ v ≤ get_max_variants_for_resolution w h) := by
  unfold validate_variants
  by_cases hv0 : v ≤ 0
  · rw [if_pos hv0]
    simp only [isOkE]
    constructor
    · intro hc; exact absurd hc (by simp)
    · intro hc; omega
  · rw [if_neg hv0]
    show isOkE (if v > get_max_variants_for_resolution w h then _ else _) = true ↔ _
    by_cases hvm : v > get_max_variants_for_resolution w h
    · rw [if_pos hvm]
      split_ifs <;>
        (simp only [isOkE]
         constructor
         · intro hc; exact absurd hc (by simp)
         · intro hc; omega)
    · rw [if_neg hvm]
      simp only [isOkE, true_iff]
      exact ⟨by omega, le_of_not_lt hvm⟩

/-- C6: the resolution category is 1080-class exactly when a dimension
is at least 1080, 720-class exactly when no dimension reaches 1080 but
one reaches 720, and other exactly otherwise; the variant ceiling for
those categories is 1, 2 and 4 respectively; and `validate_variants`
succeeds exactly when `0 < count ≤ ceiling`. -/
theorem resolution_category_variant_ceiling (w h v : Int) :
    (_get_resolution_category w h = "1080p" ↔ (w ≥ 1080 ∨ h ≥ 1080))
    ∧ (_get_resolution_category w h = "720p" ↔
        (¬(w ≥ 1080 ∨ h ≥ 1080) ∧ (w ≥ 720 ∨ h ≥ 720)))
    ∧ (_get_resolution_category w h = "other" ↔
        (¬(w ≥ 1080 ∨ h ≥ 1080) ∧ ¬(w ≥ 720 ∨ h ≥ 720)))
    ∧ (get_max_variants_for_resolution w h =
        if w ≥ 1080 ∨ h ≥ 1080 then 1 else if w ≥ 720 ∨ h ≥ 720 then 2 else 4)
    ∧ (isOkE (validate_variants w h v) = true ↔
        (0 < v ∧ v ≤ get_max_variants_for_resolution w h)) := by
  have h1 : _get_resolution_category w h = "1080p" ↔ (w ≥ 1080 ∨ h ≥ 1080) := by
    unfold _get_resolution_category
    by_cases h10 : w ≥ 1080 ∨ h ≥ 1080 <;>
      by_cases h7 : w ≥ 720 ∨ h ≥ 720 <;>
        simp [h10, h7]
  have h2 : _get_resolution_category w h = "720p" ↔
      (¬(w ≥ 1080 ∨ h ≥ 1080) ∧ (w ≥ 720 ∨ h ≥ 720)) := by
    unfold _get_resolution_category
    by_cases h10 : w ≥ 1080 ∨ h ≥ 1080 <;>
      by_cases h7 : w ≥ 720 ∨ h ≥ 720 <;>
        simp [h10, h7]
  have h3 : _get_resolution_category w h = "other" ↔
      (¬(w ≥ 1080 ∨ h ≥ 1080) ∧ ¬(w ≥ 720 ∨ h ≥ 720)) := by
    unfold _get_resolution_category
    by_cases h10 : w ≥ 1080 ∨ h ≥ 1080 <;>
      by_cases h7 : w ≥ 720 ∨ h ≥ 720 <;>
        simp [h10, h7]
  exact ⟨h1, h2, h3, max_variants_closed_form w h, validate_variants_isOk w h v⟩

/-! ## C7 -/

/-- Concrete 2xx response whose body claims JSON but does not parse. -/
def respBadJson200 : HttpResponse := ⟨200, "OK", true, "not json", .unparseable⟩

/-- C7 counterexample: a 200 response with a JSON content type and an
unparseable body makes `delete_video_generation_job` raise the client
error instead of returning `True`, refuting "returns success on any 2xx
status" as an unconditional statement. -/
theorem delete_2xx_counterexample :
    respBadJson200.status = 200
    ∧ isOkE (delete_video_generation_job respBadJson200) = false :=
  ⟨rfl, rfl⟩

/-- C7 (amended): `delete_video_generation_job` returns `True` on a 204
response unconditionally, and on any response with status below 400
(hence any 2xx) whose body is non-JSON, empty, or parseable JSON; a
second delete of the same id that draws a 404 with a parsed JSON error
body raises the uniform client error carrying that status and body —
and by the result type, a raised error is always the uniform client
error, never another exception. -/
theorem delete_success_conditions :
    (∀ r : HttpResponse, r.status = 204 → delete_video_generation_job r = .ok true)
    ∧ (∀ r : HttpResponse, httpOk r.status = true → r.contentTypeJson = false →
        delete_video_generation_job r = .ok true)
    ∧ (∀ r : HttpResponse, httpOk r.status = true → r.text = "" →
        delete_video_generation_job r = .ok true)
    ∧ (∀ (r : HttpResponse) (d : JVal), httpOk r.status = true → r.parse = .parsed d →
        delete_video_generation_job r = .ok true)
    ∧ (∀ (r : HttpResponse) (fields : List (String × JVal)),
        r.status = 404 → r.contentTypeJson = true → r.text ≠ "" →
        r.parse = .parsed (.jdict fields) →
        ∃ e, delete_video_generation_job r = .error e
          ∧ e.status_code = some 404
          ∧ e.error_details = some (.jdict fields)
          ∧ e.message = errorMessageOf fields 404 r.reason) := by
  refine ⟨?_, ?_, ?_, ?_, ?_⟩
  · intro r h204
    simp [delete_video_generation_job, h204]
  · intro r hok hct
    by_cases h204 : r.status = 204
    · simp [delete_video_generation_job, h204]
    · simp [delete_video_generation_job, h204, _handle_response, hct, hok]
  · intro r hok htext
    by_cases h204 : r.status = 204
    · simp [delete_video_generation_job, h204]
    · by_cases hct : r.contentTypeJson
      · simp [delete_video_generation_job, h204, _handle_response, hct, htext, hok]
      · simp [delete_video_generation_job, h204, _handle_response, hct, hok]
  · intro r d hok hparse
    by_cases h204 : r.status = 204
    · simp [delete_video_generation_job, h204]
    · by_cases hct : r.contentTypeJson
      · by_cases htext : r.text = ""
        · simp [delete_video_generation_job, h204, _handle_response, hct, htext, hok]
        · simp [delete_video_generation_job, h204, _handle_response, hct, htext, hparse, hok]
      · simp [delete_video_generation_job, h204, _handle_response, hct, hok]
  · intro r fields h404 hct htext hparse
    have h204 : ¬ r.status = 204 := by omega
    have hok : httpOk r.status = false := by
      simp only [httpOk, decide_eq_false_iff_not]
      omega
    have hres : delete_video_generation_job r = .error
        { message := errorMessageOf fields r.status r.reason
          status_code := some r.status
          error_details := some (.jdict fields) } := by
      simp [delete_video_generation_job, h204, _handle_response, hct, htext, hparse, hok]
    rw [h404] at hres
    exact ⟨_, hres, rfl, rfl, rfl⟩

/-- Concrete 204 delete response. -/
def resp204 : HttpResponse := ⟨204, "No Content", false, "", .unparseable⟩

/-- Concrete 404 response for a second delete of the same id. -/
def resp404 : HttpResponse :=
  ⟨404, "Not Found", true, "error body",
    .parsed (.jdict [("error", .jdict [("message", .jstr "Job not found")])])⟩

/-- C7 (amended) witness: a first delete answered 204 returns `True`,
and a second delete answered 404 with a parsed JSON error body raises
the client error carrying status 404 and that body. -/
theorem delete_success_conditions_witness :
    delete_video_generation_job resp204 = .ok true
    ∧ ∃ e, delete_video_generation_job resp404 = .error e
      ∧ e.status_code = some 404
      ∧ e.error_details =
          some (.jdict [("error", .jdict [("message", .jstr "Job not found")])])
      ∧ e.message =
          errorMessageOf [("error", .jdict [("message", .jstr "Job not found")])]
            404 resp404.reason :=
  ⟨delete_success_conditions.1 resp204 rfl,
    delete_success_conditions.2.2.2.2 resp404
      [("error", .jdict [("message", .jstr "Job not found")])]
      rfl rfl (by decide) rfl⟩

/-! ## C8 -/

/-- C8: if for some generation in the list the video save succeeds with
path `vp` and the subsequent GIF save raises the uniform client error,
`download_videos` still returns normally and its result list contains
`vp` — the successful video artifact is never dropped because of the GIF
failure. -/
theorem download_videos_keeps_video
    (saveVideo saveGif : VideoGeneration → Except SoraError String)
    (gens : List VideoGeneration) (g : VideoGeneration) (vp : String) (e : SoraError)
    (hg : g ∈ gens) (hv : saveVideo g = .ok vp) (hgif : saveGif g = .error e) :
    vp ∈ download_videos saveVideo saveGif gens := by
  induction gens with
  | nil => cases hg
  | cons a rest ih =>
    rcases List.mem_cons.mp hg with hga | hgr
    · subst hga
      simp only [download_videos, hv, hgif]
      exact List.mem_append_left _ (List.mem_cons_self _ _)
    · simp only [download_videos]
      exact List.mem_append_right _ (ih hgr)

/-- Concrete video-save effect: always succeeds with a path derived from
the generation id (as `save_video_content` returns its output path). -/
def saveVideoAlwaysOk (g : VideoGeneration) : Except SoraError String :=
  .ok ("video_" ++ g.id ++ ".mp4")

/-- Concrete GIF-save effect: always raises the uniform client error. -/
def saveGifAlwaysFails (_g : VideoGeneration) : Except SoraError String :=
  .error { message := .jstr "GIF fetch failed", status_code := some 500, error_details := none }

/-- C8 witness: for the one-generation list where the video saves and the
GIF save raises, the video path is still reported in the result list. -/
theorem download_videos_keeps_video_witness :
    "video_" ++ genSample.id ++ ".mp4" ∈
      download_videos saveVideoAlwaysOk saveGifAlwaysFails [genSample] :=
  download_videos_keeps_video saveVideoAlwaysOk saveGifAlwaysFails [genSample]
    genSample ("video_" ++ genSample.id ++ ".mp4")
    { message := .jstr "GIF fetch failed", status_code := some 500, error_details := none }
    (List.mem_cons_self _ _) rfl rfl

/-! ## C10 -/

/-- Helper: an open held session is returned unchanged. -/
theorem _get_session_keeps_open (s : ClientSession) (k : Nat) (h : s.closed = false) :
    _get_session (some s) k = (s, some s) := by
  simp [_get_session, h]

/-- Helper: whatever the starting state, the session `_get_session`
returns is open and is exactly what the state now holds. -/
theorem _get_session_result_open (st : Option ClientSession) (k : Nat) :
    ((_get_session st k).1).closed = false
    ∧ (_get_session st k).2 = some (_get_session st k).1 := by
  cases st with
  | none => simp [_get_session]
  | some s =>
    by_cases hc : s.closed
    · simp [_get_session, hc]
    · simp only [Bool.not_eq_true] at hc
      simp [_get_session, hc]

/-- Helper: starting from an open held session, every call observes that
same session. -/
theorem observeSessions_const (s : ClientSession) (h : s.closed = false) :
    ∀ ks : List Nat, observeSessions (some s) ks = ks.map (fun _ => s) := by
  intro ks
  induction ks with
  | nil => rfl
  | cons k ks ih =>
    simp only [observeSessions, List.map_cons]
    rw [_get_session_keeps_open s k h]
    exact congrArg _ ih

/-- C10: `_get_session` preserves the single-session invariant — it
returns the held session unchanged whenever one exists and is open, it
creates a fresh open session exactly when the slot is empty or the held
session is closed, and along any sequence of calls with no closure in
between, every call observes one and the same session object (the one
the first call returned). -/
theorem get_session_single_session_invariant :
    (∀ (s : ClientSession) (k : Nat), s.closed = false →
      _get_session (some s) k = (s, some s))
    ∧ (∀ k : Nat, _get_session none k = (⟨k, false⟩, some ⟨k, false⟩))
    ∧ (∀ (s : ClientSession) (k : Nat), s.closed = true →
      _get_session (some s) k = (⟨k, false⟩, some ⟨k, false⟩))
    ∧ (∀ (st : Option ClientSession) (k : Nat) (ks : List Nat),
      observeSessions st (k :: ks) =
        (_get_session st k).1 :: ks.map (fun _ => (_get_session st k).1)) := by
  refine ⟨?_, ?_, ?_, ?_⟩
  · exact fun s k h => _get_session_keeps_open s k h
  · intro k; rfl
  · intro s k h; simp [_get_session, h]
  · intro st k ks
    simp only [observeSessions]
    have hop := _get_session_result_open st k
    rw [hop.2]
    exact congrArg _ (observeSessions_const (_get_session st k).1 hop.1 ks)

/-- C10 witness: a held open session with identity 7 is returned
unchanged, and starting from an empty slot, three successive calls all
observe the session created by the first call. -/
theorem get_session_single_session_invariant_witness :
    _get_session (some ⟨7, false⟩) 3 = (⟨7, false⟩, some ⟨7, false⟩)
    ∧ observeSessions none (1 :: [2, 3]) =
        (_get_session none 1).1 :: [2, 3].map (fun _ => (_get_session none 1).1) :=
  ⟨get_session_single_session_invariant.1 ⟨7, false⟩ 3 rfl,
    get_session_single_session_invariant.2.2.2 none 1 [2, 3]⟩

end SoraSdk
